import Mathlib

/-!
Shallow embedding of the HSI accelerator control driver
(`src/sw/hsi_accel_regs.h`, `src/sw/hsi_accel.h`, `src/sw/hsi_accel.c`).

The driver is a thin layer of register reads/writes over a memory-mapped
register block.  We embed each C function as a Lean function parameterised
by a register-access model (`RegModel`): the C code only consumes the two
primitives `hsi_accel_read_reg` / `hsi_accel_write_reg`, so every driver
function is polymorphic in how the backing store / device services those
accesses.  Concrete models instantiate it:
  * `storeModel`   — a plain backing store (writes visible to later reads);
  * `oracleModel`  — a device whose k-th observed STATUS value is `σ k`,
                     with the state tracking how many reads occurred;
  * `traceModel`   — instruments any model with a log of all accesses;
  * `specDeviceModel` — a device honouring the documented COMMAND semantics.
Register values are 32-bit: stores truncate written values with `% 2^32`.
-/

/-- Register byte offset of OPCODE (`HSI_ACCEL_OPCODE_OFFSET`, hsi_accel_regs.h). -/
def HSI_ACCEL_OPCODE_OFFSET : Nat := 0x00

/-- Register byte offset of NUM_BANDS (`HSI_ACCEL_NUM_BANDS_OFFSET`). -/
def HSI_ACCEL_NUM_BANDS_OFFSET : Nat := 0x04

/-- Register byte offset of COMMAND (`HSI_ACCEL_COMMAND_OFFSET`). -/
def HSI_ACCEL_COMMAND_OFFSET : Nat := 0x08

/-- Register byte offset of STATUS (`HSI_ACCEL_STATUS_OFFSET`). -/
def HSI_ACCEL_STATUS_OFFSET : Nat := 0x0C

/-- COMMAND bit index for START (`HSI_ACCEL_CMD_START_BIT`). -/
def HSI_ACCEL_CMD_START_BIT : Nat := 0

/-- COMMAND bit index for CLEAR_DONE (`HSI_ACCEL_CMD_CLEAR_DONE_BIT`). -/
def HSI_ACCEL_CMD_CLEAR_DONE_BIT : Nat := 1

/-- COMMAND bit index for CLEAR_ERROR (`HSI_ACCEL_CMD_CLEAR_ERROR_BIT`). -/
def HSI_ACCEL_CMD_CLEAR_ERROR_BIT : Nat := 2

/-- STATUS bit index for DONE (`HSI_ACCEL_STATUS_DONE_BIT`). -/
def HSI_ACCEL_STATUS_DONE_BIT : Nat := 0

/-- STATUS shift of the ERROR_CODE field (`HSI_ACCEL_STATUS_ERROR_SHIFT`). -/
def HSI_ACCEL_STATUS_ERROR_SHIFT : Nat := 1

/-- Width in bits of the ERROR_CODE field (`HSI_ACCEL_STATUS_ERROR_WIDTH`). -/
def HSI_ACCEL_STATUS_ERROR_WIDTH : Nat := 4

/-- Mask of the ERROR_CODE field:
`(((1u << HSI_ACCEL_STATUS_ERROR_WIDTH) - 1) << HSI_ACCEL_STATUS_ERROR_SHIFT)`. -/
def HSI_ACCEL_STATUS_ERROR_MASK : Nat :=
  ((1 <<< HSI_ACCEL_STATUS_ERROR_WIDTH) - 1) <<< HSI_ACCEL_STATUS_ERROR_SHIFT

/-- STATUS bit index for BUSY (`HSI_ACCEL_STATUS_BUSY_BIT`). -/
def HSI_ACCEL_STATUS_BUSY_BIT : Nat := 8

/-- Abstract register-access interface: how the backing store / device services
a 32-bit read or write at a byte offset, threading a device state `δ`.
A read may step the device (it returns the value read and the next state). -/
structure RegModel (δ : Type) where
  readReg : δ → Nat → Nat × δ
  writeReg : δ → Nat → Nat → δ

/-- `hsi_accel_write_reg(off, v)`: store `v` at byte offset `off`. -/
def hsi_accel_write_reg {δ : Type} (M : RegModel δ) (d : δ) (off v : Nat) : δ :=
  M.writeReg d off v

/-- `hsi_accel_read_reg(off)`: load the 32-bit value at byte offset `off`. -/
def hsi_accel_read_reg {δ : Type} (M : RegModel δ) (d : δ) (off : Nat) : Nat × δ :=
  M.readReg d off

/-- `hsi_accel_set_opcode(code)`. -/
def hsi_accel_set_opcode {δ : Type} (M : RegModel δ) (d : δ) (code : Nat) : δ :=
  hsi_accel_write_reg M d HSI_ACCEL_OPCODE_OFFSET code

/-- `hsi_accel_get_opcode()`. -/
def hsi_accel_get_opcode {δ : Type} (M : RegModel δ) (d : δ) : Nat × δ :=
  hsi_accel_read_reg M d HSI_ACCEL_OPCODE_OFFSET

/-- `hsi_accel_set_num_bands(nb)`. -/
def hsi_accel_set_num_bands {δ : Type} (M : RegModel δ) (d : δ) (nb : Nat) : δ :=
  hsi_accel_write_reg M d HSI_ACCEL_NUM_BANDS_OFFSET nb

/-- `hsi_accel_get_num_bands()`. -/
def hsi_accel_get_num_bands {δ : Type} (M : RegModel δ) (d : δ) : Nat × δ :=
  hsi_accel_read_reg M d HSI_ACCEL_NUM_BANDS_OFFSET

/-- `hsi_accel_start()`: write `1u << HSI_ACCEL_CMD_START_BIT` to COMMAND. -/
def hsi_accel_start {δ : Type} (M : RegModel δ) (d : δ) : δ :=
  hsi_accel_write_reg M d HSI_ACCEL_COMMAND_OFFSET (1 <<< HSI_ACCEL_CMD_START_BIT)

/-- `hsi_accel_clear_done()`: write `1u << HSI_ACCEL_CMD_CLEAR_DONE_BIT` to COMMAND. -/
def hsi_accel_clear_done {δ : Type} (M : RegModel δ) (d : δ) : δ :=
  hsi_accel_write_reg M d HSI_ACCEL_COMMAND_OFFSET (1 <<< HSI_ACCEL_CMD_CLEAR_DONE_BIT)

/-- `hsi_accel_clear_error()`: write `1u << HSI_ACCEL_CMD_CLEAR_ERROR_BIT` to COMMAND. -/
def hsi_accel_clear_error {δ : Type} (M : RegModel δ) (d : δ) : δ :=
  hsi_accel_write_reg M d HSI_ACCEL_COMMAND_OFFSET (1 <<< HSI_ACCEL_CMD_CLEAR_ERROR_BIT)

/-- `hsi_accel_get_status()`: one STATUS read. -/
def hsi_accel_get_status {δ : Type} (M : RegModel δ) (d : δ) : Nat × δ :=
  hsi_accel_read_reg M d HSI_ACCEL_STATUS_OFFSET

/-- `hsi_accel_is_done()`: `(status >> HSI_ACCEL_STATUS_DONE_BIT) & 1` as bool. -/
def hsi_accel_is_done {δ : Type} (M : RegModel δ) (d : δ) : Bool × δ :=
  let p := hsi_accel_get_status M d
  (((p.1 >>> HSI_ACCEL_STATUS_DONE_BIT) &&& 1) == 1, p.2)

/-- `hsi_accel_get_error()`: `(status & HSI_ACCEL_STATUS_ERROR_MASK) >> HSI_ACCEL_STATUS_ERROR_SHIFT`. -/
def hsi_accel_get_error {δ : Type} (M : RegModel δ) (d : δ) : Nat × δ :=
  let p := hsi_accel_get_status M d
  ((p.1 &&& HSI_ACCEL_STATUS_ERROR_MASK) >>> HSI_ACCEL_STATUS_ERROR_SHIFT, p.2)

/-- `hsi_accel_is_busy()`: `(status >> HSI_ACCEL_STATUS_BUSY_BIT) & 1` as bool. -/
def hsi_accel_is_busy {δ : Type} (M : RegModel δ) (d : δ) : Bool × δ :=
  let p := hsi_accel_get_status M d
  (((p.1 >>> HSI_ACCEL_STATUS_BUSY_BIT) &&& 1) == 1, p.2)

/-- `hsi_accel_init()`: `hsi_accel_clear_done(); hsi_accel_clear_error();` (hsi_accel.h). -/
def hsi_accel_init {δ : Type} (M : RegModel δ) (d : δ) : δ :=
  hsi_accel_clear_error M (hsi_accel_clear_done M d)

/-- `hsi_accel_configure(opcode, num_bands)`: set OPCODE then NUM_BANDS (hsi_accel.h). -/
def hsi_accel_configure {δ : Type} (M : RegModel δ) (d : δ) (opcode num_bands : Nat) : δ :=
  hsi_accel_set_num_bands M (hsi_accel_set_opcode M d opcode) num_bands

/-- `hsi_accel_launch()`: `hsi_accel_start();` (hsi_accel.h). -/
def hsi_accel_launch {δ : Type} (M : RegModel δ) (d : δ) : δ :=
  hsi_accel_start M d

/-- `hsi_accel_error()`: `return hsi_accel_get_error();` (hsi_accel.h). -/
def hsi_accel_error {δ : Type} (M : RegModel δ) (d : δ) : Nat × δ :=
  hsi_accel_get_error M d

/-- `hsi_accel_wait_done(timeout_ciclos)` (hsi_accel.c):
`while (timeout_ciclos--) { if (hsi_accel_is_done()) return true; } return false;`
The loop body runs at most `timeout_ciclos` times, polling DONE once per pass. -/
def hsi_accel_wait_done {δ : Type} (M : RegModel δ) (d : δ) : Nat → Bool × δ
  | 0 => (false, d)
  | t + 1 =>
    let p := hsi_accel_is_done M d
    if p.1 then (true, p.2) else hsi_accel_wait_done M p.2 t

/-- Backing store of §6's collaborator contract: a write to an offset is visible
to subsequent reads of that offset; registers hold 32-bit values. -/
def storeModel : RegModel (Nat → Nat) where
  readReg d off := (d off, d)
  writeReg d off v := fun o => if o = off then v % 2 ^ 32 else d o

/-- Device oracle for polling: the state is the number of reads performed so far,
and the k-th read (of any register) observes `σ k`; writes are ignored. -/
def oracleModel (σ : Nat → Nat) : RegModel Nat where
  readReg k _ := (σ k % 2 ^ 32, k + 1)
  writeReg k _ _ := k

/-- One register access, as recorded by the instrumented model. -/
inductive RegAccess where
  | read : Nat → Nat → RegAccess
  | write : Nat → Nat → RegAccess
deriving DecidableEq, Repr

/-- Whether an access is a read of the STATUS register. -/
def RegAccess.isStatusRead : RegAccess → Bool
  | .read off _ => off == HSI_ACCEL_STATUS_OFFSET
  | .write _ _ => false

/-- Instrumentation of a register model: alongside the device state, keep the
log of every access the driver performs, in order. -/
def traceModel {δ : Type} (M : RegModel δ) : RegModel (δ × List RegAccess) where
  readReg s off :=
    let p := M.readReg s.1 off
    (p.1, (p.2, s.2 ++ [RegAccess.read off p.1]))
  writeReg s off v := (M.writeReg s.1 off v, s.2 ++ [RegAccess.write off v])

/-- Modelled from the spec: the accelerator device itself (the RTL
`hsi_vector_core_wrapper` behind the register block, which is not under src/).
Architectural state per §3: OPCODE, NUM_BANDS, the DONE flag, the 4-bit
ERROR_CODE and the BUSY flag. -/
structure SpecDevice where
  opcode : Nat
  num_bands : Nat
  done : Bool
  error : Nat
  busy : Bool
deriving DecidableEq, Repr

/-- Modelled from the spec: the STATUS encoding of §3 — DONE at bit 0,
ERROR_CODE (4 bits) at bits 1–4, BUSY at bit 8. -/
def SpecDevice.status (dev : SpecDevice) : Nat :=
  (if dev.done then 1 else 0) |||
    ((dev.error % 16) <<< HSI_ACCEL_STATUS_ERROR_SHIFT) |||
    ((if dev.busy then 1 else 0) <<< HSI_ACCEL_STATUS_BUSY_BIT)

/-- Modelled from the spec: effect of a COMMAND write (§3, §4.1) — each bit is
interpreted independently: CLEAR_DONE deasserts DONE, CLEAR_ERROR zeroes
ERROR_CODE.  START begins the configured operation; its completion timing is
device-defined and does not change DONE/ERROR at the write itself. -/
def SpecDevice.applyCommand (dev : SpecDevice) (v : Nat) : SpecDevice :=
  { dev with
    done := if v.testBit HSI_ACCEL_CMD_CLEAR_DONE_BIT then false else dev.done,
    error := if v.testBit HSI_ACCEL_CMD_CLEAR_ERROR_BIT then 0 else dev.error }

/-- Modelled from the spec: a device honouring §3/§4.1 register semantics —
OPCODE and NUM_BANDS are plain 32-bit storage, STATUS reads the encoded flags,
COMMAND writes trigger the documented side effects. -/
def specDeviceModel : RegModel SpecDevice where
  readReg dev off :=
    (if off = HSI_ACCEL_OPCODE_OFFSET then dev.opcode
     else if off = HSI_ACCEL_NUM_BANDS_OFFSET then dev.num_bands
     else if off = HSI_ACCEL_STATUS_OFFSET then dev.status
     else 0, dev)
  writeReg dev off v :=
    if off = HSI_ACCEL_OPCODE_OFFSET then { dev with opcode := v % 2 ^ 32 }
    else if off = HSI_ACCEL_NUM_BANDS_OFFSET then { dev with num_bands := v % 2 ^ 32 }
    else if off = HSI_ACCEL_COMMAND_OFFSET then dev.applyCommand v
    else dev

example : (hsi_accel_wait_done (oracleModel (fun k => if k = 2 then 1 else 0)) 0 3).1 = true := by
  decide

example : (hsi_accel_wait_done (oracleModel (fun k => if k = 2 then 1 else 0)) 0 2).1 = false := by
  decide

example : hsi_accel_wait_done (oracleModel (fun _ => 0)) 0 5 = (false, 5) := by
  decide

/-! ### Basic unfolding lemmas -/

theorem wait_done_zero_eq {δ : Type} (M : RegModel δ) (d : δ) :
    hsi_accel_wait_done M d 0 = (false, d) := rfl

theorem wait_done_succ_eq {δ : Type} (M : RegModel δ) (d : δ) (t : Nat) :
    hsi_accel_wait_done M d (t + 1) =
      if (hsi_accel_is_done M d).1 then (true, (hsi_accel_is_done M d).2)
      else hsi_accel_wait_done M (hsi_accel_is_done M d).2 t := rfl

theorem is_done_oracle_snd (σ : Nat → Nat) (k : Nat) :
    (hsi_accel_is_done (oracleModel σ) k).2 = k + 1 := rfl

theorem is_done_store (d : Nat → Nat) :
    hsi_accel_is_done storeModel d =
      (((d HSI_ACCEL_STATUS_OFFSET >>> HSI_ACCEL_STATUS_DONE_BIT) &&& 1) == 1, d) := rfl

theorem is_done_trace {δ : Type} (M : RegModel δ) (d : δ) (tr : List RegAccess) :
    hsi_accel_is_done (traceModel M) (d, tr) =
      ((((M.readReg d HSI_ACCEL_STATUS_OFFSET).1 >>> HSI_ACCEL_STATUS_DONE_BIT) &&& 1) == 1,
       ((M.readReg d HSI_ACCEL_STATUS_OFFSET).2,
        tr ++ [RegAccess.read HSI_ACCEL_STATUS_OFFSET (M.readReg d HSI_ACCEL_STATUS_OFFSET).1])) :=
  rfl

/-! ### C2 -/

/-- C2: `hsi_accel_wait_done(0)` returns false (timed out) having performed no
register access at all — in particular zero STATUS reads — and leaves any
device model untouched: the budget is consumed before the first check. -/
theorem C2_wait_done_zero_no_poll :
    (∀ (δ : Type) (M : RegModel δ) (d : δ) (tr : List RegAccess),
       hsi_accel_wait_done (traceModel M) (d, tr) 0 = (false, (d, tr)))
    ∧ (∀ (δ : Type) (M : RegModel δ) (d : δ), hsi_accel_wait_done M d 0 = (false, d)) :=
  ⟨fun _ _ _ _ => rfl, fun _ _ _ => rfl⟩

/-! ### C9 -/

/-- C9: `hsi_accel_launch` (via `hsi_accel_start`) performs exactly one register
access: a write of the exact value 1 (only the START bit) to COMMAND; on the
documented device a launch therefore changes neither DONE nor ERROR_CODE
(it can never simultaneously trigger CLEAR_DONE or CLEAR_ERROR). -/
theorem C9_launch_writes_one :
    (∀ (δ : Type) (M : RegModel δ) (d : δ) (tr : List RegAccess),
       hsi_accel_launch (traceModel M) (d, tr) =
         (M.writeReg d HSI_ACCEL_COMMAND_OFFSET 1,
          tr ++ [RegAccess.write HSI_ACCEL_COMMAND_OFFSET 1]))
    ∧ (∀ (δ : Type) (M : RegModel δ) (d : δ) (tr : List RegAccess),
       hsi_accel_start (traceModel M) (d, tr) =
         (M.writeReg d HSI_ACCEL_COMMAND_OFFSET 1,
          tr ++ [RegAccess.write HSI_ACCEL_COMMAND_OFFSET 1]))
    ∧ (∀ dev : SpecDevice,
       (hsi_accel_launch specDeviceModel dev).done = dev.done
         ∧ (hsi_accel_launch specDeviceModel dev).error = dev.error) :=
  ⟨fun _ _ _ _ => rfl, fun _ _ _ _ => rfl,
   fun dev => by rcases dev with ⟨o, n, dn, e, b⟩; exact ⟨rfl, rfl⟩⟩

/-! ### C10 -/

/-- C10: `hsi_accel_init` performs exactly two register accesses, in order:
a COMMAND write of value 2 (only CLEAR_DONE) and then a COMMAND write of
value 4 (only CLEAR_ERROR) — two separate writes, not one combined write,
and no register other than COMMAND is touched. -/
theorem C10_init_two_command_writes :
    ∀ (δ : Type) (M : RegModel δ) (d : δ) (tr : List RegAccess),
      hsi_accel_init (traceModel M) (d, tr) =
        (M.writeReg (M.writeReg d HSI_ACCEL_COMMAND_OFFSET 2) HSI_ACCEL_COMMAND_OFFSET 4,
         tr ++ [RegAccess.write HSI_ACCEL_COMMAND_OFFSET 2,
                RegAccess.write HSI_ACCEL_COMMAND_OFFSET 4]) := by
  intro δ M d tr
  show (M.writeReg (M.writeReg d HSI_ACCEL_COMMAND_OFFSET (1 <<< 1)) HSI_ACCEL_COMMAND_OFFSET (1 <<< 2),
        (tr ++ [RegAccess.write HSI_ACCEL_COMMAND_OFFSET (1 <<< 1)]) ++
          [RegAccess.write HSI_ACCEL_COMMAND_OFFSET (1 <<< 2)]) = _
  rw [List.append_assoc]
  rfl

/-! ### C7 -/

/-- C7: `hsi_accel_clear_done` issues exactly one COMMAND write of value 2
(only bit 1, CLEAR_DONE) and `hsi_accel_clear_error` exactly one COMMAND write
of value 4 (only bit 2, CLEAR_ERROR); on the documented device, clear_done
deasserts DONE leaving ERROR_CODE (and everything else) unchanged, and
clear_error zeroes ERROR_CODE leaving DONE (and everything else) unchanged. -/
theorem C7_clear_done_clear_error_independent :
    (∀ (δ : Type) (M : RegModel δ) (d : δ) (tr : List RegAccess),
       hsi_accel_clear_done (traceModel M) (d, tr) =
         (M.writeReg d HSI_ACCEL_COMMAND_OFFSET 2,
          tr ++ [RegAccess.write HSI_ACCEL_COMMAND_OFFSET 2]))
    ∧ (∀ (δ : Type) (M : RegModel δ) (d : δ) (tr : List RegAccess),
       hsi_accel_clear_error (traceModel M) (d, tr) =
         (M.writeReg d HSI_ACCEL_COMMAND_OFFSET 4,
          tr ++ [RegAccess.write HSI_ACCEL_COMMAND_OFFSET 4]))
    ∧ (∀ dev : SpecDevice,
       hsi_accel_clear_done specDeviceModel dev = { dev with done := false })
    ∧ (∀ dev : SpecDevice,
       hsi_accel_clear_error specDeviceModel dev = { dev with error := 0 }) :=
  ⟨fun _ _ _ _ => rfl, fun _ _ _ _ => rfl,
   fun dev => by rcases dev with ⟨o, n, dn, e, b⟩; rfl,
   fun dev => by rcases dev with ⟨o, n, dn, e, b⟩; rfl⟩

/-! ### C1 -/

theorem wait_done_oracle_threshold (σ : Nat → Nat) :
    ∀ c k : Nat,
      (∀ i, i < c → (hsi_accel_is_done (oracleModel σ) (k + i)).1 = false) →
      (hsi_accel_is_done (oracleModel σ) (k + c)).1 = true →
      ∀ t, (hsi_accel_wait_done (oracleModel σ) k t).1 = decide (c < t) := by
  intro c
  induction c with
  | zero =>
    intro k _ hat t
    rw [Nat.add_zero] at hat
    cases t with
    | zero => simp [wait_done_zero_eq]
    | succ t => rw [wait_done_succ_eq, hat]; simp
  | succ c ih =>
    intro k hbefore hat t
    have h0 : (hsi_accel_is_done (oracleModel σ) k).1 = false := by
      have h := hbefore 0 (Nat.succ_pos c)
      rwa [Nat.add_zero] at h
    cases t with
    | zero => simp [wait_done_zero_eq]
    | succ t =>
      rw [wait_done_succ_eq, h0]
      simp only [Bool.false_eq_true, if_false, is_done_oracle_snd]
      have hb : ∀ i, i < c → (hsi_accel_is_done (oracleModel σ) (k + 1 + i)).1 = false := by
        intro i hi
        have h := hbefore (i + 1) (Nat.succ_lt_succ hi)
        have e : k + (i + 1) = k + 1 + i := by omega
        rwa [e] at h
      have ha : (hsi_accel_is_done (oracleModel σ) (k + 1 + c)).1 = true := by
        have e : k + (c + 1) = k + 1 + c := by omega
        rwa [e] at hat
      rw [ih (k + 1) hb ha t, decide_eq_decide]
      omega

theorem wait_done_oracle_never (σ : Nat → Nat)
    (h : ∀ k, (hsi_accel_is_done (oracleModel σ) k).1 = false) :
    ∀ t k : Nat, hsi_accel_wait_done (oracleModel σ) k t = (false, k + t) := by
  intro t
  induction t with
  | zero => intro k; rw [wait_done_zero_eq, Nat.add_zero]
  | succ t ih =>
    intro k
    rw [wait_done_succ_eq, h k]
    simp only [Bool.false_eq_true, if_false, is_done_oracle_snd]
    rw [ih (k + 1)]
    have e : k + 1 + t = k + (t + 1) := by omega
    rw [e]

/-- C1: on a device model whose successive polls observe `σ 0, σ 1, …` and on
which DONE first becomes observable on the N-th poll, `hsi_accel_wait_done t`
returns true exactly when `t ≥ N` (true for every budget `≥ N`, false for
every budget `< N`); and on a model that never asserts DONE,
`hsi_accel_wait_done 1000` returns false having performed its full budget of
1000 polls (the final state counts the reads performed). -/
theorem C1_wait_done_threshold :
    (∀ (σ : Nat → Nat) (N : Nat), 1 ≤ N →
       (∀ i, i < N - 1 → (hsi_accel_is_done (oracleModel σ) i).1 = false) →
       (hsi_accel_is_done (oracleModel σ) (N - 1)).1 = true →
       ∀ t, (hsi_accel_wait_done (oracleModel σ) 0 t).1 = decide (N ≤ t))
    ∧ (∀ σ : Nat → Nat,
       (∀ k, (hsi_accel_is_done (oracleModel σ) k).1 = false) →
       hsi_accel_wait_done (oracleModel σ) 0 1000 = (false, 1000)) := by
  constructor
  · intro σ N hN hbefore hat t
    have h := wait_done_oracle_threshold σ (N - 1) 0
      (by intro i hi; simpa using hbefore i hi) (by simpa using hat) t
    rw [h, decide_eq_decide]
    omega
  · intro σ h
    simpa using wait_done_oracle_never σ h 1000 0

/-- Witness for C1: with polls observing 0, 0, 1, … DONE is first observable on
the 3rd poll; a budget of 3 completes and a budget of 2 times out; with polls
never observing DONE, a budget of 1000 times out after 1000 reads. -/
theorem C1_wait_done_threshold_witness :
    ((hsi_accel_wait_done (oracleModel (fun k => if k = 2 then 1 else 0)) 0 3).1
        = decide ((3 : Nat) ≤ 3)
      ∧ (hsi_accel_wait_done (oracleModel (fun k => if k = 2 then 1 else 0)) 0 2).1
        = decide ((3 : Nat) ≤ 2))
    ∧ hsi_accel_wait_done (oracleModel (fun _ => 0)) 0 1000 = (false, 1000) := by
  refine ⟨⟨?_, ?_⟩, ?_⟩
  · exact C1_wait_done_threshold.1 (fun k => if k = 2 then 1 else 0) 3 (by omega)
      (by intro i hi; interval_cases i <;> rfl) (by rfl) 3
  · exact C1_wait_done_threshold.1 (fun k => if k = 2 then 1 else 0) 3 (by omega)
      (by intro i hi; interval_cases i <;> rfl) (by rfl) 2
  · exact C1_wait_done_threshold.2 (fun _ => 0)
      (fun k => by
        simp [hsi_accel_is_done, hsi_accel_get_status, hsi_accel_read_reg, oracleModel])

/-! ### C5 -/

theorem wait_done_trace_all_status_reads {δ : Type} (M : RegModel δ) :
    ∀ (t : Nat) (d : δ) (tr : List RegAccess),
      ∃ l : List RegAccess,
        (hsi_accel_wait_done (traceModel M) (d, tr) t).2.2 = tr ++ l
          ∧ l.all RegAccess.isStatusRead = true := by
  intro t
  induction t with
  | zero =>
    intro d tr
    exact ⟨[], by simp [wait_done_zero_eq]⟩
  | succ t ih =>
    intro d tr
    rw [wait_done_succ_eq, is_done_trace]
    by_cases h : ((((M.readReg d HSI_ACCEL_STATUS_OFFSET).1 >>> HSI_ACCEL_STATUS_DONE_BIT) &&& 1) == 1) = true
    · refine ⟨[RegAccess.read HSI_ACCEL_STATUS_OFFSET (M.readReg d HSI_ACCEL_STATUS_OFFSET).1],
        ?_, by simp [RegAccess.isStatusRead]⟩
      rw [if_pos h]
    · obtain ⟨l, hl, hall⟩ := ih (M.readReg d HSI_ACCEL_STATUS_OFFSET).2
        (tr ++ [RegAccess.read HSI_ACCEL_STATUS_OFFSET (M.readReg d HSI_ACCEL_STATUS_OFFSET).1])
      refine ⟨RegAccess.read HSI_ACCEL_STATUS_OFFSET (M.readReg d HSI_ACCEL_STATUS_OFFSET).1 :: l,
        ?_, ?_⟩
      · rw [if_neg h, hl, List.append_assoc]
        rfl
      · simp [RegAccess.isStatusRead, hall]

/-- C5: `hsi_accel_wait_done` never writes to any register: over any device
model, every access in its trace is a read of STATUS (so OPCODE, NUM_BANDS,
COMMAND and STATUS are whatever the device produced); in particular on a plain
backing store the whole register file is left exactly unchanged, whether the
call times out or completes. -/
theorem C5_wait_done_never_writes :
    (∀ (δ : Type) (M : RegModel δ) (d : δ) (t : Nat),
       ((hsi_accel_wait_done (traceModel M) (d, ([] : List RegAccess)) t).2.2).all
           RegAccess.isStatusRead = true)
    ∧ (∀ (d : Nat → Nat) (t : Nat), (hsi_accel_wait_done storeModel d t).2 = d) := by
  constructor
  · intro δ M d t
    obtain ⟨l, hl, hall⟩ := wait_done_trace_all_status_reads M t d []
    rw [hl]
    simpa using hall
  · intro d t
    induction t with
    | zero => rfl
    | succ t ih =>
      rw [wait_done_succ_eq, is_done_store]
      by_cases h : (((d HSI_ACCEL_STATUS_OFFSET >>> HSI_ACCEL_STATUS_DONE_BIT) &&& 1) == 1) = true
      · rw [if_pos h]
      · rw [if_neg h]
        exact ih

/-! ### C3 and C8: status field decoding -/

theorem bit_extract_eq_div_mod (s k : Nat) :
    (((s >>> k) &&& 1) == 1) = decide (s / 2 ^ k % 2 = 1) := by
  rw [Nat.shiftRight_eq_div_pow, Nat.and_one_is_mod]
  by_cases h : s / 2 ^ k % 2 = 1
  · simp [h]
  · simp [h]

theorem error_field_eq_div_mod (s : Nat) :
    (s &&& HSI_ACCEL_STATUS_ERROR_MASK) >>> HSI_ACCEL_STATUS_ERROR_SHIFT = s / 2 % 16 := by
  have hmask : HSI_ACCEL_STATUS_ERROR_MASK = 30 := by decide
  have hshift : HSI_ACCEL_STATUS_ERROR_SHIFT = 1 := rfl
  rw [hmask, hshift]
  apply Nat.eq_of_testBit_eq
  intro i
  rw [Nat.testBit_shiftRight, Nat.testBit_and]
  have h30 : Nat.testBit 30 (1 + i) = decide (i < 4) := by
    rw [Nat.add_comm 1 i, ← Nat.testBit_div_two]
    have h15 : (30 : Nat) / 2 = 2 ^ 4 - 1 := by norm_num
    rw [h15, Nat.testBit_two_pow_sub_one]
  have h16 : (16 : Nat) = 2 ^ 4 := by norm_num
  rw [h30, h16, Nat.testBit_mod_two_pow]
  have hdiv : s / 2 = s >>> 1 := by rw [Nat.shiftRight_eq_div_pow, Nat.pow_one]
  rw [hdiv, Nat.testBit_shiftRight, Nat.add_comm 1 i, Bool.and_comm]

theorem get_status_trace_store (d : Nat → Nat) (tr : List RegAccess) :
    hsi_accel_get_status (traceModel storeModel) (d, tr) =
      (d HSI_ACCEL_STATUS_OFFSET,
       (d, tr ++ [RegAccess.read HSI_ACCEL_STATUS_OFFSET (d HSI_ACCEL_STATUS_OFFSET)])) := rfl

/-- C3: with the STATUS register holding `s`, `hsi_accel_is_done` returns bit 0
of `s` (`s % 2 = 1`), `hsi_accel_get_error` and its wrapper `hsi_accel_error`
return the 4-bit field at bits 1–4 (`s / 2 % 16`), and `hsi_accel_is_busy`
returns bit 8 (`s / 2^8 % 2 = 1`) — each call performing exactly one STATUS
read of its own, as its recorded access trace shows. -/
theorem C3_status_accessors_decode (s : Nat) (d : Nat → Nat)
    (hd : d HSI_ACCEL_STATUS_OFFSET = s) :
    hsi_accel_is_done (traceModel storeModel) (d, []) =
      (decide (s % 2 = 1), (d, [RegAccess.read HSI_ACCEL_STATUS_OFFSET s]))
    ∧ hsi_accel_get_error (traceModel storeModel) (d, []) =
      (s / 2 % 16, (d, [RegAccess.read HSI_ACCEL_STATUS_OFFSET s]))
    ∧ hsi_accel_error (traceModel storeModel) (d, []) =
      (s / 2 % 16, (d, [RegAccess.read HSI_ACCEL_STATUS_OFFSET s]))
    ∧ hsi_accel_is_busy (traceModel storeModel) (d, []) =
      (decide (s / 2 ^ 8 % 2 = 1), (d, [RegAccess.read HSI_ACCEL_STATUS_OFFSET s])) := by
  have herr : hsi_accel_get_error (traceModel storeModel) (d, []) =
      (s / 2 % 16, (d, [RegAccess.read HSI_ACCEL_STATUS_OFFSET s])) := by
    show ((d HSI_ACCEL_STATUS_OFFSET &&& HSI_ACCEL_STATUS_ERROR_MASK) >>>
            HSI_ACCEL_STATUS_ERROR_SHIFT,
          (d, [RegAccess.read HSI_ACCEL_STATUS_OFFSET (d HSI_ACCEL_STATUS_OFFSET)])) = _
    rw [hd, error_field_eq_div_mod]
  refine ⟨?_, herr, herr, ?_⟩
  · show (((d HSI_ACCEL_STATUS_OFFSET >>> HSI_ACCEL_STATUS_DONE_BIT) &&& 1) == 1,
          (d, [RegAccess.read HSI_ACCEL_STATUS_OFFSET (d HSI_ACCEL_STATUS_OFFSET)])) = _
    rw [hd]
    have h0 : HSI_ACCEL_STATUS_DONE_BIT = 0 := rfl
    rw [h0, bit_extract_eq_div_mod s 0]
    norm_num
  · show (((d HSI_ACCEL_STATUS_OFFSET >>> HSI_ACCEL_STATUS_BUSY_BIT) &&& 1) == 1,
          (d, [RegAccess.read HSI_ACCEL_STATUS_OFFSET (d HSI_ACCEL_STATUS_OFFSET)])) = _
    rw [hd]
    have h8 : HSI_ACCEL_STATUS_BUSY_BIT = 8 := rfl
    rw [h8, bit_extract_eq_div_mod s 8]

/-- Witness for C3 at STATUS = 275 = 0x113 (DONE set, ERROR_CODE = 9, BUSY set). -/
theorem C3_status_accessors_decode_witness :
    hsi_accel_is_done (traceModel storeModel) ((fun _ => 275), []) =
      (decide (275 % 2 = 1), ((fun _ => 275), [RegAccess.read HSI_ACCEL_STATUS_OFFSET 275]))
    ∧ hsi_accel_get_error (traceModel storeModel) ((fun _ => 275), []) =
      (275 / 2 % 16, ((fun _ => 275), [RegAccess.read HSI_ACCEL_STATUS_OFFSET 275]))
    ∧ hsi_accel_error (traceModel storeModel) ((fun _ => 275), []) =
      (275 / 2 % 16, ((fun _ => 275), [RegAccess.read HSI_ACCEL_STATUS_OFFSET 275]))
    ∧ hsi_accel_is_busy (traceModel storeModel) ((fun _ => 275), []) =
      (decide (275 / 2 ^ 8 % 2 = 1), ((fun _ => 275), [RegAccess.read HSI_ACCEL_STATUS_OFFSET 275])) :=
  C3_status_accessors_decode 275 (fun _ => 275) rfl

/-- C8: whatever value a STATUS read observes (any device model, any state, so
in particular every possible 32-bit content), the value returned by
`hsi_accel_get_error` — and by its wrapper `hsi_accel_error` — is strictly
less than 16: the 4-bit masking bounds the error code. -/
theorem C8_error_code_lt_16 {δ : Type} (M : RegModel δ) (d : δ) :
    (hsi_accel_get_error M d).1 < 16 ∧ (hsi_accel_error M d).1 < 16 := by
  have h : ∀ s : Nat, (s &&& HSI_ACCEL_STATUS_ERROR_MASK) >>> HSI_ACCEL_STATUS_ERROR_SHIFT < 16 := by
    intro s
    rw [error_field_eq_div_mod]
    omega
  exact ⟨h _, h _⟩

/-! ### C4 -/

/-- C4: on a backing store where a write to an offset is visible to subsequent
reads of that offset, `hsi_accel_configure(opcode, num_bands)` followed by
`hsi_accel_get_opcode()` and `hsi_accel_get_num_bands()` returns exactly the
32-bit values written — no validation or transformation at this layer — and
the reads themselves leave the store unchanged (so reading in sequence reads
the same configured store). -/
theorem C4_configure_roundtrip (d : Nat → Nat) (opcode num_bands : Nat)
    (h1 : opcode < 2 ^ 32) (h2 : num_bands < 2 ^ 32) :
    (hsi_accel_get_opcode storeModel (hsi_accel_configure storeModel d opcode num_bands)).1
        = opcode
    ∧ (hsi_accel_get_num_bands storeModel (hsi_accel_configure storeModel d opcode num_bands)).1
        = num_bands
    ∧ (hsi_accel_get_opcode storeModel (hsi_accel_configure storeModel d opcode num_bands)).2
        = hsi_accel_configure storeModel d opcode num_bands
    ∧ (hsi_accel_get_num_bands storeModel (hsi_accel_configure storeModel d opcode num_bands)).2
        = hsi_accel_configure storeModel d opcode num_bands := by
  refine ⟨?_, ?_, rfl, rfl⟩
  · show (if (0 : Nat) = 4 then num_bands % 2 ^ 32
          else if (0 : Nat) = 0 then opcode % 2 ^ 32 else d 0) = opcode
    norm_num at h1
    simp [Nat.mod_eq_of_lt h1]
  · show (if (4 : Nat) = 4 then num_bands % 2 ^ 32
          else if (4 : Nat) = 0 then opcode % 2 ^ 32 else d 4) = num_bands
    norm_num at h2
    simp [Nat.mod_eq_of_lt h2]

/-- Witness for C4 at the demo program's values: opcode 1, num_bands 2. -/
theorem C4_configure_roundtrip_witness :
    (hsi_accel_get_opcode storeModel (hsi_accel_configure storeModel (fun _ => 0) 1 2)).1 = 1
    ∧ (hsi_accel_get_num_bands storeModel (hsi_accel_configure storeModel (fun _ => 0) 1 2)).1 = 2
    ∧ (hsi_accel_get_opcode storeModel (hsi_accel_configure storeModel (fun _ => 0) 1 2)).2
        = hsi_accel_configure storeModel (fun _ => 0) 1 2
    ∧ (hsi_accel_get_num_bands storeModel (hsi_accel_configure storeModel (fun _ => 0) 1 2)).2
        = hsi_accel_configure storeModel (fun _ => 0) 1 2 :=
  C4_configure_roundtrip (fun _ => 0) 1 2 (by norm_num) (by norm_num)

/-! ### C6 -/

theorem init_specDevice (o n : Nat) (dn : Bool) (e : Nat) (b : Bool) :
    hsi_accel_init specDeviceModel ⟨o, n, dn, e, b⟩ = ⟨o, n, false, 0, b⟩ := by
  have t1 : Nat.testBit (1 <<< HSI_ACCEL_CMD_CLEAR_DONE_BIT) HSI_ACCEL_CMD_CLEAR_DONE_BIT
      = true := by decide
  have t2 : Nat.testBit (1 <<< HSI_ACCEL_CMD_CLEAR_DONE_BIT) HSI_ACCEL_CMD_CLEAR_ERROR_BIT
      = false := by decide
  have t3 : Nat.testBit (1 <<< HSI_ACCEL_CMD_CLEAR_ERROR_BIT) HSI_ACCEL_CMD_CLEAR_DONE_BIT
      = false := by decide
  have t4 : Nat.testBit (1 <<< HSI_ACCEL_CMD_CLEAR_ERROR_BIT) HSI_ACCEL_CMD_CLEAR_ERROR_BIT
      = true := by decide
  simp [hsi_accel_init, hsi_accel_clear_done, hsi_accel_clear_error, hsi_accel_write_reg,
    specDeviceModel, SpecDevice.applyCommand, t1, t2, t3, t4,
    HSI_ACCEL_COMMAND_OFFSET, HSI_ACCEL_OPCODE_OFFSET, HSI_ACCEL_NUM_BANDS_OFFSET]

theorem get_status_specDevice (dev : SpecDevice) :
    hsi_accel_get_status specDeviceModel dev = (dev.status, dev) := by
  simp [hsi_accel_get_status, hsi_accel_read_reg, specDeviceModel,
    HSI_ACCEL_STATUS_OFFSET, HSI_ACCEL_OPCODE_OFFSET, HSI_ACCEL_NUM_BANDS_OFFSET]

/-- C6: after `hsi_accel_init()` on a device honouring the documented COMMAND
side effects, `hsi_accel_is_done()` reports false and `hsi_accel_get_error()`
reports 0, whatever the prior device state was; init takes no precondition and
has no failure outcome at this layer. -/
theorem C6_init_reports_cleared (dev : SpecDevice) :
    (hsi_accel_is_done specDeviceModel (hsi_accel_init specDeviceModel dev)).1 = false
    ∧ (hsi_accel_get_error specDeviceModel (hsi_accel_init specDeviceModel dev)).1 = 0 := by
  rcases dev with ⟨o, n, dn, e, b⟩
  rw [init_specDevice]
  have hst : SpecDevice.status ⟨o, n, false, 0, b⟩ = if b then 256 else 0 := by
    cases b <;> simp [SpecDevice.status, HSI_ACCEL_STATUS_ERROR_SHIFT, HSI_ACCEL_STATUS_BUSY_BIT]
  constructor
  · have h : hsi_accel_is_done specDeviceModel ⟨o, n, false, 0, b⟩ =
        ((((SpecDevice.status ⟨o, n, false, 0, b⟩) >>> HSI_ACCEL_STATUS_DONE_BIT) &&& 1) == 1,
         (⟨o, n, false, 0, b⟩ : SpecDevice)) := by
      simp [hsi_accel_is_done, get_status_specDevice]
    rw [h, hst]
    cases b <;> simp [HSI_ACCEL_STATUS_DONE_BIT]
  · have h : hsi_accel_get_error specDeviceModel ⟨o, n, false, 0, b⟩ =
        (((SpecDevice.status ⟨o, n, false, 0, b⟩) &&& HSI_ACCEL_STATUS_ERROR_MASK) >>>
            HSI_ACCEL_STATUS_ERROR_SHIFT,
         (⟨o, n, false, 0, b⟩ : SpecDevice)) := by
      simp [hsi_accel_get_error, get_status_specDevice]
    rw [h, hst, error_field_eq_div_mod]
    cases b <;> simp
